import Mathlib

/-!
Verification of the materialization-planning stage
(`src/frontend/src/optimizer/plan_node/stream_materialize.rs`).

The file shallowly embeds the `StreamMaterialize` plan node and its helper
routines. External collaborator types and routines that are only consumed by
this file (the plan-node abstraction, the `Distribution` / `RequiredDist`
property types, the key and column derivation helpers) are modelled from the
specification of their interface; each such definition carries a doc comment
starting with `Modelled from the spec:`.
-/

set_option linter.unusedVariables false

namespace RW

/-- Modelled from the spec: sort direction of a column order
(`risingwave_common::util::sort_util::OrderType`). -/
inductive OrderType where
  | ascending
  | descending
deriving DecidableEq, Repr

/-- Modelled from the spec: one primary-key component, a (column index, sort
direction) pair (`risingwave_common::util::sort_util::ColumnOrder`). -/
structure ColumnOrder where
  column_index : Nat
  order_type : OrderType
deriving DecidableEq, Repr

/-- Modelled from the spec: `ColumnOrder::new(idx, ot)`. -/
def ColumnOrder.new (idx : Nat) (ot : OrderType) : ColumnOrder :=
  { column_index := idx, order_type := ot }

/-- Modelled from the spec: an ordered sequence of (column, direction) pairs
requested by the caller (`risingwave::optimizer::property::Order`). -/
structure Order where
  column_orders : List ColumnOrder
deriving DecidableEq, Repr

/-- Modelled from the spec: `Order::any()`, the unconstrained order. -/
def Order.any : Order :=
  { column_orders := [] }

/-- Modelled from the spec: an actual physical data distribution
(`risingwave::optimizer::property::Distribution`). `Single` puts all rows on
one worker; `HashShard` / `UpstreamHashShard` hash-shard rows by the listed
columns; `SomeShard` / `Broadcast` are the remaining physical variants. -/
inductive Distribution where
  | Single
  | SomeShard
  | Broadcast
  | HashShard (cols : List Nat)
  | UpstreamHashShard (cols : List Nat)
deriving DecidableEq, Repr

/-- Modelled from the spec: a required distribution
(`risingwave::optimizer::property::RequiredDist`): `Any` is unconstrained,
`ShardByKey` is a logical shard-by-key request over a column set (a bit set in
the source, modelled as a sorted duplicate-free list), `PhysicalDist` demands
one concrete physical distribution. -/
inductive RequiredDist where
  | Any
  | AnyShard
  | ShardByKey (cols : List Nat)
  | PhysicalDist (dist : Distribution)
deriving DecidableEq, Repr

/-- Modelled from the spec: `RequiredDist::single()`. -/
def RequiredDist.single : RequiredDist :=
  RequiredDist.PhysicalDist Distribution.Single

/-- Modelled from the spec: `RequiredDist::shard_by_key(num_cols, keys)` builds
a shard-by-key request over the key columns, as a bit set of width
`num_cols`. -/
def RequiredDist.shard_by_key (num_cols : Nat) (keys : List Nat) : RequiredDist :=
  RequiredDist.ShardByKey ((List.range num_cols).filter (fun i => keys.contains i))

/-- Modelled from the spec: the hash-shard columns of a distribution
(`Distribution::dist_column_indices`); non-sharded distributions have none. -/
def Distribution.dist_column_indices : Distribution → List Nat
  | Distribution.HashShard cols => cols
  | Distribution.UpstreamHashShard cols => cols
  | _ => []

/-- Modelled from the spec: whether an actual distribution satisfies a
required one (`Distribution::satisfies`): `Any` is always satisfied, a
shard-by-key request is satisfied by a hash distribution on a non-empty
subset of the key, and a physical requirement only by that distribution. -/
def Distribution.satisfies (d : Distribution) (required : RequiredDist) : Bool :=
  match required with
  | RequiredDist.Any => true
  | RequiredDist.AnyShard =>
    match d with
    | Distribution.SomeShard => true
    | Distribution.HashShard _ => true
    | Distribution.UpstreamHashShard _ => true
    | _ => false
  | RequiredDist.ShardByKey key =>
    match d with
    | Distribution.HashShard cols => !cols.isEmpty && cols.all (fun c => key.contains c)
    | Distribution.UpstreamHashShard cols => !cols.isEmpty && cols.all (fun c => key.contains c)
    | _ => false
  | RequiredDist.PhysicalDist d2 => d == d2

/-- Modelled from the spec: the concrete distribution a requirement is
enforced to (`RequiredDist::to_dist`): a shard-by-key request becomes a hash
shard on its key columns. -/
def RequiredDist.to_dist : RequiredDist → Distribution
  | RequiredDist.Any => Distribution.SomeShard
  | RequiredDist.AnyShard => Distribution.SomeShard
  | RequiredDist.ShardByKey cols => Distribution.HashShard cols
  | RequiredDist.PhysicalDist d => d

/-- Errors of the embedding: `fatal` models a panic / failed assertion /
`unreachable!` (a programmer-error defect), `planning` models a recoverable
`Result::Err` planning failure surfaced to the user. -/
inductive RwErr where
  | fatal (msg : String)
  | planning (msg : String)
deriving DecidableEq, Repr

/-- Modelled from the spec: a scalar data type of a field
(`risingwave_common::types::DataType`), abstracted to a few variants; only
equality of types matters to this component. -/
inductive DataType where
  | Int32
  | Int64
  | Float64
  | Varchar
  | Boolean
deriving DecidableEq, Repr

/-- Modelled from the spec: one field of a schema
(`risingwave_common::catalog::Field`): a data type, a name, the nested
sub-fields (for composite types) and the composite type name. -/
structure Field where
  data_type : DataType
  name : String
  sub_fields : List (String × DataType)
  type_name : String
deriving DecidableEq, Repr

/-- Modelled from the spec: a schema, the ordered column list of a plan node
(`risingwave_common::catalog::Schema`). -/
structure Schema where
  fields : List Field
deriving DecidableEq, Repr

/-- Modelled from the spec: a functional-dependency set, each dependency
stating that the first column set determines the second
(`FunctionalDependencySet`). -/
abbrev FunctionalDependencySet := List (List Nat × List Nat)

/-- Modelled from the spec: the discriminator identifying the stream plan
node kinds this component inspects; every other node kind is `other`. -/
inductive NodeKind where
  | streamHashJoin
  | streamTemporalJoin
  | streamDeltaJoin
  | streamExchange
  | other (tag : String)
deriving DecidableEq, Repr

/-- Modelled from the spec: the observable metadata a stream plan node
exposes to this component: schema, current distribution, stream key,
functional dependencies, append-only and emit-on-window-close flags,
watermark columns and the context options snapshot used for internal-table
properties. -/
structure PlanNodeCore where
  schema : Schema
  dist : Distribution
  stream_key : Option (List Nat)
  fd : FunctionalDependencySet
  append_only : Bool
  emit_on_window_close : Bool
  watermark_columns : List Nat
  ctx_with_options : List (String × String)
deriving DecidableEq, Repr

/-- Modelled from the spec: a shared, immutable stream plan node
(`PlanRef`): a node kind, its observable metadata, and its children. -/
inductive PlanRef where
  | node (kind : NodeKind) (core : PlanNodeCore) (children : List PlanRef)

def PlanRef.kind : PlanRef → NodeKind
  | PlanRef.node k _ _ => k

def PlanRef.core : PlanRef → PlanNodeCore
  | PlanRef.node _ c _ => c

def PlanRef.children : PlanRef → List PlanRef
  | PlanRef.node _ _ cs => cs

/-- Modelled from the spec: `plan.schema()`. -/
def PlanRef.schema (p : PlanRef) : Schema :=
  p.core.schema

/-- Modelled from the spec: `plan.distribution()`. -/
def PlanRef.distribution (p : PlanRef) : Distribution :=
  p.core.dist

/-- Modelled from the spec: `plan.stream_key()`, which may be unavailable. -/
def PlanRef.stream_key (p : PlanRef) : Option (List Nat) :=
  p.core.stream_key

/-- Modelled from the spec: `plan.expect_stream_key()` panics when the node
has no stream key. -/
def PlanRef.expect_stream_key (p : PlanRef) : Except RwErr (List Nat) :=
  match p.stream_key with
  | some k => Except.ok k
  | none => Except.error (RwErr.fatal "expect stream key: stream key is None")

/-- Modelled from the spec: `plan.functional_dependency()`. -/
def PlanRef.functional_dependency (p : PlanRef) : FunctionalDependencySet :=
  p.core.fd

/-- Modelled from the spec: `plan.append_only()`. -/
def PlanRef.append_only (p : PlanRef) : Bool :=
  p.core.append_only

/-- Modelled from the spec: `plan.emit_on_window_close()`. -/
def PlanRef.emit_on_window_close (p : PlanRef) : Bool :=
  p.core.emit_on_window_close

/-- Modelled from the spec: `plan.watermark_columns()`. -/
def PlanRef.watermark_columns (p : PlanRef) : List Nat :=
  p.core.watermark_columns

/-- Modelled from the spec: `plan.ctx().with_options().internal_table_subset()`. -/
def PlanRef.ctx_with_options (p : PlanRef) : List (String × String) :=
  p.core.ctx_with_options

/-- Modelled from the spec: the `input.as_stream_hash_join()` downcast. -/
def PlanRef.as_stream_hash_join (p : PlanRef) : Option Unit :=
  if p.kind = NodeKind.streamHashJoin then some () else none

/-- Modelled from the spec: the `input.as_stream_temporal_join()` downcast. -/
def PlanRef.as_stream_temporal_join (p : PlanRef) : Option Unit :=
  if p.kind = NodeKind.streamTemporalJoin then some () else none

/-- Modelled from the spec: the `input.as_stream_delta_join()` downcast. -/
def PlanRef.as_stream_delta_join (p : PlanRef) : Option Unit :=
  if p.kind = NodeKind.streamDeltaJoin then some () else none

/-- Modelled from the spec: `RequiredDist::enforce(plan, required_order)`
inserts a data-redistribution (exchange) stage on top of the input, whose
distribution is the enforced one and whose other observable metadata is the
input's. -/
def RequiredDist.enforce (r : RequiredDist) (plan : PlanRef) (_required_order : Order) : PlanRef :=
  PlanRef.node NodeKind.streamExchange { plan.core with dist := r.to_dist } [plan]

/-- Modelled from the spec: `RequiredDist::enforce_if_not_satisfies`, the
idempotent enforcement: the input is returned unchanged when its distribution
already satisfies the requirement, otherwise an exchange is inserted. -/
def RequiredDist.enforce_if_not_satisfies (r : RequiredDist) (plan : PlanRef)
    (required_order : Order) : Except RwErr PlanRef :=
  if plan.distribution.satisfies r then
    Except.ok plan
  else
    Except.ok (r.enforce plan required_order)

/-- The table kind (`crate::catalog::table_catalog::TableType`). -/
inductive TableType where
  | Table
  | MaterializedView
  | Index
  | Internal
deriving DecidableEq, Repr

/-- Modelled from the spec: the conflict behavior applied on a duplicate
primary key (`risingwave_common::catalog::ConflictBehavior`). -/
inductive ConflictBehavior where
  | NoCheck
  | Overwrite
  | IgnoreConflict
deriving DecidableEq, Repr

/-- Whether a computation ended in a fatal (panic-equivalent) failure. -/
def fatal_result {α : Type} : Except RwErr α → Bool
  | Except.error (RwErr.fatal _) => true
  | _ => false

/-- Whether a required distribution is a shard-by-key request (the pattern of
the `assert_matches!` in the `Table` branch of `rewrite_input`). -/
def RequiredDist.is_shard_by_key : RequiredDist → Bool
  | RequiredDist.ShardByKey _ => true
  | _ => false

/-- Whether a required distribution is a fully resolved hash-shard request
(the pattern of the `assert_matches!` in the `Index` branch of
`rewrite_input`). -/
def RequiredDist.is_resolved_hash_shard : RequiredDist → Bool
  | RequiredDist.PhysicalDist (Distribution.HashShard _) => true
  | _ => false

/-- The outcome of the `required_dist` computation inside `rewrite_input`:
either a requirement that still has to be enforced on the input (the fall
through to `enforce_if_not_satisfies`), or an early-returned rewritten
plan (the stream-join branch). -/
inductive RewriteStage where
  | dist (required : RequiredDist)
  | done (plan : PlanRef)

/-- The `required_dist` match of `StreamMaterialize::rewrite_input`, including
the early return of the stream-join branch; `fatal` models the
`assert_matches!` / `unreachable!` defect signals. -/
def rewrite_input_required (input : PlanRef) (user_distributed_by : RequiredDist)
    (table_type : TableType) : Except RwErr RewriteStage :=
  match input.distribution with
  | Distribution.Single => Except.ok (RewriteStage.dist RequiredDist.single)
  | _ =>
    match table_type with
    | TableType.Table =>
      match user_distributed_by with
      | RequiredDist.ShardByKey _ => Except.ok (RewriteStage.dist user_distributed_by)
      | _ => Except.error (RwErr.fatal "assertion failed: expected ShardByKey for Table")
    | TableType.MaterializedView =>
      match user_distributed_by with
      | RequiredDist.Any => do
        let sk ← input.expect_stream_key
        let required_dist := RequiredDist.shard_by_key input.schema.fields.length sk
        let is_stream_join := (input.as_stream_hash_join).isSome
          || (input.as_stream_temporal_join).isSome
          || (input.as_stream_delta_join).isSome
        if is_stream_join then
          Except.ok (RewriteStage.done (required_dist.enforce input Order.any))
        else
          Except.ok (RewriteStage.dist required_dist)
      | _ => Except.error (RwErr.fatal "assertion failed: expected Any for MaterializedView")
    | TableType.Index =>
      match user_distributed_by with
      | RequiredDist.PhysicalDist (Distribution.HashShard _) =>
        Except.ok (RewriteStage.dist user_distributed_by)
      | _ => Except.error (RwErr.fatal "assertion failed: expected HashShard for Index")
    | TableType.Internal => Except.error (RwErr.fatal "unreachable: Internal table type")

/-- `StreamMaterialize::rewrite_input`: rewrite the input to satisfy the
required distribution if necessary, according to the table type. -/
def rewrite_input (input : PlanRef) (user_distributed_by : RequiredDist)
    (table_type : TableType) : Except RwErr PlanRef := do
  match ← rewrite_input_required input user_distributed_by table_type with
  | RewriteStage.dist required_dist => required_dist.enforce_if_not_satisfies input Order.any
  | RewriteStage.done plan => Except.ok plan

/-- Modelled from the spec: one persisted column of the Table Descriptor, a
(name, data type, hidden flag) triple (`risingwave_common::catalog::ColumnCatalog`). -/
structure ColumnCatalog where
  name : String
  data_type : DataType
  is_hidden : Bool
deriving DecidableEq, Repr

/-- Modelled from the spec: the placeholder table identity assigned at
construction time and replaced by the external catalog service
(`TableId::placeholder()`). -/
structure TableId where
  table_id : Nat
deriving DecidableEq, Repr

/-- Modelled from the spec: the out-of-band placeholder table id. -/
def TableId.placeholder : TableId :=
  { table_id := 4294967295 - 1 }

/-- Modelled from the spec: the placeholder fragment id used at construction
time (`FragmentId::MAX - 1` in the source, with `FragmentId = u32`). -/
def FRAGMENT_ID_PLACEHOLDER : Nat :=
  4294967295 - 1

/-- Modelled from the spec: the default owner id
(`risingwave_common::catalog::DEFAULT_SUPER_USER_ID`). -/
def DEFAULT_SUPER_USER_ID : Nat :=
  1

/-- Modelled from the spec: a versioned-table version record
(`crate::catalog::table_catalog::TableVersion`), passed through unchanged. -/
structure TableVersion where
  version_id : Nat
  next_column_id : Nat
deriving DecidableEq, Repr

/-- Modelled from the spec: the cardinality estimate
(`risingwave::optimizer::property::Cardinality`), a lower bound and an
optional upper bound, passed through unchanged. -/
structure Cardinality where
  lo : Nat
  hi : Option Nat
deriving DecidableEq, Repr

/-- Modelled from the spec: `Cardinality::unknown()`. -/
def Cardinality.unknown : Cardinality :=
  { lo := 0, hi := none }

/-- Modelled from the spec: `crate::catalog::table_catalog::CreateType`. -/
inductive CreateType where
  | Foreground
  | Background
deriving DecidableEq, Repr

/-- The Table Descriptor (`crate::catalog::table_catalog::TableCatalog`),
modelled with the fields `derive_table_catalog` populates. -/
structure TableCatalog where
  id : TableId
  associated_source_id : Option Nat
  name : String
  columns : List ColumnCatalog
  pk : List ColumnOrder
  stream_key : List Nat
  distribution_key : List Nat
  table_type : TableType
  append_only : Bool
  owner : Nat
  properties : List (String × String)
  fragment_id : Nat
  dml_fragment_id : Option Nat
  vnode_col_index : Option Nat
  row_id_index : Option Nat
  value_indices : List Nat
  definition : String
  conflict_behavior : ConflictBehavior
  read_prefix_len_hint : Nat
  version : Option TableVersion
  watermark_columns : List Nat
  dist_key_in_pk : List Nat
  cardinality : Cardinality
  created_at_epoch : Option Nat
  initialized_at_epoch : Option Nat
  cleaned_by_watermark : Bool
  create_type : CreateType
  description : Option String
  incoming_sinks : List Nat
deriving DecidableEq, Repr

/-- Modelled from the spec: one round of the functional-dependency closure:
every dependency whose determinant is contained in the accumulated column set
contributes its determined columns. -/
def fd_step (fds : FunctionalDependencySet) (acc : List Nat) : List Nat :=
  fds.foldl
    (fun a p =>
      if p.1.all (fun c => a.contains c) then a ++ p.2.filter (fun c => !a.contains c) else a)
    acc

/-- Modelled from the spec: the functional-dependency closure of a column
set; `fds.length` rounds reach the fixpoint since each dependency fires
productively at most once. -/
def fd_closure (fds : FunctionalDependencySet) (s : List Nat) : List Nat :=
  Nat.iterate (fd_step fds) fds.length s

/-- Modelled from the spec: the minimal unique-determining subset of a key
(`FunctionalDependencySet::minimize_key`): greedily drop a key column whose
removal keeps the remaining columns determining the whole original key via
the functional-dependency closure. -/
def minimize_key (fds : FunctionalDependencySet) (key : List Nat) : List Nat :=
  key.foldl
    (fun acc c =>
      let without := acc.filter (fun x => x != c)
      if key.all (fun k => (fd_closure fds without).contains k) then without else acc)
    key

/-- Modelled from the spec: the Key Deriver's derived-key path (`derive_pk`
in `plan_node/derive.rs`, not among the sources under review). The input's
stream key, deduplicated and minimized through the functional-dependency
closure, becomes the stream key; the primary key is the requested order-by
sequence followed by the remaining stream-key columns ascending. Per the
spec, a missing stream key or an empty resulting key is a recoverable
planning failure, never an empty silent result. -/
def derive_pk (input : PlanRef) (user_order_by : Order) (_columns : List ColumnCatalog) :
    Except RwErr (List ColumnOrder × List Nat) :=
  match input.stream_key with
  | none => Except.error (RwErr.planning "cannot determine a primary key for this stream")
  | some sk0 =>
    let sk := minimize_key input.functional_dependency sk0.dedup
    let in_order := user_order_by.column_orders.map ColumnOrder.column_index
    let pk := user_order_by.column_orders ++
      (sk.filter (fun c => !in_order.contains c)).map
        (fun c => ColumnOrder.new c OrderType.ascending)
    if pk.isEmpty then
      Except.error (RwErr.planning "cannot determine a primary key for this stream")
    else
      Except.ok (pk, sk)

/-- Helper of the modelled `derive_columns`: walk the schema fields in order,
making the fields selected by `user_cols` visible under the next output name
and the remaining fields hidden under their own field name. -/
def assign_column_names : List Field → Nat → List String → List Nat → List ColumnCatalog
  | [], _, _, _ => []
  | f :: rest, i, names, user_cols =>
    if user_cols.contains i then
      match names with
      | n :: ns =>
        { name := n, data_type := f.data_type, is_hidden := false } ::
          assign_column_names rest (i + 1) ns user_cols
      | [] =>
        { name := f.name, data_type := f.data_type, is_hidden := false } ::
          assign_column_names rest (i + 1) [] user_cols
    else
      { name := f.name, data_type := f.data_type, is_hidden := true } ::
        assign_column_names rest (i + 1) names user_cols

/-- Modelled from the spec: `derive_columns` (in `plan_node/derive.rs`, not
among the sources under review) builds the persisted column list from the
input schema: the fields selected by `user_cols` become visible columns named
by `out_names` in order, the rest become hidden columns keeping their field
name; a mismatched number of names is a recoverable planning failure. -/
def derive_columns (schema : Schema) (out_names : List String) (user_cols : List Nat) :
    Except RwErr (List ColumnCatalog) :=
  let visible := (List.range schema.fields.length).filter (fun i => user_cols.contains i)
  if out_names.length != visible.length then
    Except.error (RwErr.planning "invalid number of output column names")
  else
    Except.ok (assign_column_names schema.fields 0 out_names user_cols)

/-- Modelled from the spec: `reorganize_elements_id` only renumbers internal
expression identifiers referred to by hidden column names; the spec ascribes
it no effect on any metadata observable by this component, so it is the
identity on the modelled plan. -/
def reorganize_elements_id (input : PlanRef) : PlanRef :=
  input

/-- `StreamMaterialize::derive_table_catalog`: assemble the Table Descriptor
from the rewritten input and the creation parameters. `pk_column_indices` is
`some` exactly when creating a `TABLE`; otherwise the keys come from the
derived-key path. -/
def derive_table_catalog (rewritten_input : PlanRef) (name : String) (user_order_by : Order)
    (columns : List ColumnCatalog) (definition : String)
    (conflict_behavior : ConflictBehavior) (pk_column_indices : Option (List Nat))
    (row_id_index : Option Nat) (table_type : TableType) (version : Option TableVersion)
    (cardinality : Cardinality) : Except RwErr TableCatalog := do
  let input := rewritten_input
  let value_indices := List.range columns.length
  let distribution_key := input.distribution.dist_column_indices
  let properties := input.ctx_with_options
  let append_only := input.append_only
  let watermark_columns := input.watermark_columns
  let pair ←
    match pk_column_indices with
    | some idxs =>
      Except.ok (idxs.map (fun idx => ColumnOrder.new idx OrderType.ascending), idxs)
    | none => derive_pk input user_order_by columns
  let table_pk := pair.1
  let stream_key := pair.2
  let read_prefix_len_hint := table_pk.length
  Except.ok
    { id := TableId.placeholder
      associated_source_id := none
      name := name
      columns := columns
      pk := table_pk
      stream_key := stream_key
      distribution_key := distribution_key
      table_type := table_type
      append_only := append_only
      owner := DEFAULT_SUPER_USER_ID
      properties := properties
      fragment_id := FRAGMENT_ID_PLACEHOLDER
      dml_fragment_id := none
      vnode_col_index := none
      row_id_index := row_id_index
      value_indices := value_indices
      definition := definition
      conflict_behavior := conflict_behavior
      read_prefix_len_hint := read_prefix_len_hint
      version := version
      watermark_columns := watermark_columns
      dist_key_in_pk := []
      cardinality := cardinality
      created_at_epoch := none
      initialized_at_epoch := none
      cleaned_by_watermark := false
      create_type := CreateType.Foreground
      description := none
      incoming_sinks := [] }

/-- The stream-plan metadata of the materialize node itself
(`PlanBase::new_stream`), modelled with the arguments `StreamMaterialize::new`
passes. -/
structure PlanBase where
  schema : Schema
  stream_key : Option (List Nat)
  functional_dependency : FunctionalDependencySet
  dist : Distribution
  append_only : Bool
  emit_on_window_close : Bool
  watermark_columns : List Nat

/-- The `StreamMaterialize` plan node: its own stream metadata, its single
child, and the Table Descriptor. -/
structure StreamMaterialize where
  base : PlanBase
  input : PlanRef
  table : TableCatalog

/-- `StreamMaterialize::new`: wrap the input and the table, building the
node's own metadata from the input except for the stream key, which is taken
from the table. -/
def StreamMaterialize.new (input : PlanRef) (table : TableCatalog) : StreamMaterialize :=
  { base :=
      { schema := input.schema
        stream_key := some table.stream_key
        functional_dependency := input.functional_dependency
        dist := input.distribution
        append_only := input.append_only
        emit_on_window_close := input.emit_on_window_close
        watermark_columns := input.watermark_columns }
    input := input
    table := table }

/-- `StreamMaterialize::create`: create a materialize node for
`MATERIALIZED VIEW` and `INDEX`. -/
def create (input : PlanRef) (name : String) (user_distributed_by : RequiredDist)
    (user_order_by : Order) (user_cols : List Nat) (out_names : List String)
    (definition : String) (table_type : TableType) (cardinality : Cardinality) :
    Except RwErr StreamMaterialize := do
  let input ← rewrite_input input user_distributed_by table_type
  let input := reorganize_elements_id input
  let columns ← derive_columns input.schema out_names user_cols
  let table ← derive_table_catalog input name user_order_by columns definition
    ConflictBehavior.NoCheck none none table_type none cardinality
  Except.ok (StreamMaterialize.new input table)

/-- `StreamMaterialize::create_for_table`: create a materialize node for
`TABLE`, with the columns and key column indices passed in directly. -/
def create_for_table (input : PlanRef) (name : String) (user_distributed_by : RequiredDist)
    (user_order_by : Order) (columns : List ColumnCatalog) (definition : String)
    (conflict_behavior : ConflictBehavior) (pk_column_indices : List Nat)
    (row_id_index : Option Nat) (version : Option TableVersion) :
    Except RwErr StreamMaterialize := do
  let input ← rewrite_input input user_distributed_by TableType.Table
  let table ← derive_table_catalog input name user_order_by columns definition
    conflict_behavior (some pk_column_indices) row_id_index TableType.Table version
    Cardinality.unknown
  Except.ok (StreamMaterialize.new input table)

/-- The pairwise schema-field compatibility checked by
`clone_with_input`: `zip_eq_fast` (aborting on a length mismatch) with the
three per-field `assert_eq!` checks on data type, type name and
sub-fields. -/
def fields_type_eq (a b : List Field) : Bool :=
  a.length == b.length &&
    (a.zip b).all
      (fun p =>
        p.1.data_type == p.2.data_type && p.1.type_name == p.2.type_name &&
          p.1.sub_fields == p.2.sub_fields)

/-- `<StreamMaterialize as PlanTreeNodeUnary>::clone_with_input`: rebuild the
node on a replacement child, then assert that the node's own schema field
types and stream key did not change; a failed assertion is fatal. -/
def clone_with_input (self : StreamMaterialize) (input : PlanRef) :
    Except RwErr StreamMaterialize :=
  let new := StreamMaterialize.new input self.table
  if fields_type_eq new.base.schema.fields self.base.schema.fields then
    if new.base.stream_key == self.base.stream_key then
      Except.ok new
    else
      Except.error (RwErr.fatal "assertion failed: stream key changed")
  else
    Except.error (RwErr.fatal "assertion failed: schema field type changed")

/-- Modelled from the spec: a (column index, direction) pair in the shared
inter-stage plan-serialization schema (`PbColumnOrder`, the target of
`ColumnOrder::to_protobuf`). -/
structure PbColumnOrder where
  column_index : Nat
  direction : OrderType
deriving DecidableEq, Repr

/-- Modelled from the spec: `ColumnOrder::to_protobuf`. -/
def ColumnOrder.to_protobuf (c : ColumnOrder) : PbColumnOrder :=
  { column_index := c.column_index, direction := c.order_type }

/-- Modelled from the spec: `TableCatalog::to_internal_table_prost` renders
the full descriptor into the wire schema; the wire form carries the whole
descriptor, modelled as the descriptor itself. -/
def to_internal_table_prost (t : TableCatalog) : TableCatalog :=
  t

/-- Modelled from the spec: the wire-level materialize operator descriptor
(`risingwave_pb::stream_plan::MaterializeNode`). -/
structure MaterializeNode where
  table_id : Nat
  column_orders : List PbColumnOrder
  table : Option TableCatalog
deriving DecidableEq, Repr

/-- Modelled from the spec: the wire-level stream operator body
(`risingwave_pb::stream_plan::stream_node::PbNodeBody`), restricted to the
variant this component emits. -/
inductive PbNodeBody where
  | Materialize (body : MaterializeNode)
deriving DecidableEq, Repr

def PbNodeBody.materialize_body : PbNodeBody → MaterializeNode
  | PbNodeBody.Materialize body => body

/-- `<StreamMaterialize as StreamNode>::to_stream_prost_body`: render the
node into the wire-level materialize operator descriptor. The table id is
left as the placeholder `0`; the real id is generated on the meta catalog
service. -/
def to_stream_prost_body (self : StreamMaterialize) : PbNodeBody :=
  PbNodeBody.Materialize
    { table_id := 0
      column_orders := self.table.pk.map ColumnOrder.to_protobuf
      table := some (to_internal_table_prost self.table) }

/-! Concrete example values used by the witnesses and counterexamples. -/

/-- An example bigint field. -/
def fldA : Field :=
  { data_type := DataType.Int64, name := "a", sub_fields := [], type_name := "" }

/-- An example varchar field. -/
def fldB : Field :=
  { data_type := DataType.Varchar, name := "b", sub_fields := [], type_name := "" }

/-- An example stream hash join node: two columns, hash-sharded by the join
column `0`, stream key column `1`. -/
def join_in : PlanRef :=
  PlanRef.node NodeKind.streamHashJoin
    { schema := { fields := [fldA, fldB] }
      dist := Distribution.HashShard [0]
      stream_key := some [1]
      fd := []
      append_only := false
      emit_on_window_close := false
      watermark_columns := []
      ctx_with_options := [] } []

/-- An example single-distribution input node with one column and stream key
column `0`. -/
def mat_in : PlanRef :=
  PlanRef.node (NodeKind.other "dml")
    { schema := { fields := [fldA] }
      dist := Distribution.Single
      stream_key := some [0]
      fd := []
      append_only := false
      emit_on_window_close := false
      watermark_columns := []
      ctx_with_options := [] } []

/-- The visible column of the example table. -/
def colA : ColumnCatalog :=
  { name := "a", data_type := DataType.Int64, is_hidden := false }

/-- The Table Descriptor produced for the example `TABLE` creation
(`create_for_table` on `mat_in` with key columns `[0]` and `Overwrite`
conflict behavior). -/
def mat_tbl : TableCatalog :=
  { id := TableId.placeholder
    associated_source_id := none
    name := "t"
    columns := [colA]
    pk := [ColumnOrder.new 0 OrderType.ascending]
    stream_key := [0]
    distribution_key := []
    table_type := TableType.Table
    append_only := false
    owner := DEFAULT_SUPER_USER_ID
    properties := []
    fragment_id := FRAGMENT_ID_PLACEHOLDER
    dml_fragment_id := none
    vnode_col_index := none
    row_id_index := none
    value_indices := [0]
    definition := ""
    conflict_behavior := ConflictBehavior.Overwrite
    read_prefix_len_hint := 1
    version := none
    watermark_columns := []
    dist_key_in_pk := []
    cardinality := Cardinality.unknown
    created_at_epoch := none
    initialized_at_epoch := none
    cleaned_by_watermark := false
    create_type := CreateType.Foreground
    description := none
    incoming_sinks := [] }

/-- The materialize node produced for the example `TABLE` creation. -/
def mat_m : StreamMaterialize :=
  StreamMaterialize.new mat_in mat_tbl

/-- The Table Descriptor produced for the example `MATERIALIZED VIEW`
creation (`create` on `mat_in`). -/
def mv_tbl : TableCatalog :=
  { mat_tbl with name := "mv"
                 table_type := TableType.MaterializedView
                 conflict_behavior := ConflictBehavior.NoCheck }

/-- The materialize node produced for the example `MATERIALIZED VIEW`
creation. -/
def mv_m : StreamMaterialize :=
  StreamMaterialize.new mat_in mv_tbl

/-- A replacement child for `mat_m` with the same schema but a different
node kind and distribution. -/
def clone_good_in : PlanRef :=
  PlanRef.node (NodeKind.other "project")
    { schema := { fields := [fldA] }
      dist := Distribution.SomeShard
      stream_key := some [0]
      fd := []
      append_only := false
      emit_on_window_close := false
      watermark_columns := []
      ctx_with_options := [] } []

/-- A replacement child for `mat_m` whose only field has a different data
type. -/
def clone_bad_in : PlanRef :=
  PlanRef.node (NodeKind.other "project")
    { schema := { fields := [fldB] }
      dist := Distribution.SomeShard
      stream_key := some [0]
      fd := []
      append_only := false
      emit_on_window_close := false
      watermark_columns := []
      ctx_with_options := [] } []

/-- The node produced by `clone_with_input` on `mat_m` and `clone_good_in`. -/
def clone_res : StreamMaterialize :=
  StreamMaterialize.new clone_good_in mat_tbl

/-! Helper lemmas shared by the claim theorems. -/

/-- On success, the conflict behavior stored in the catalog built by
`derive_table_catalog` is exactly the one passed in. -/
theorem derive_table_catalog_conflict (ri : PlanRef) (name : String) (ord : Order)
    (cols : List ColumnCatalog) (defn : String) (cb : ConflictBehavior)
    (pk_idx : Option (List Nat)) (row_id : Option Nat) (tt : TableType)
    (ver : Option TableVersion) (card : Cardinality) (t : TableCatalog)
    (h : derive_table_catalog ri name ord cols defn cb pk_idx row_id tt ver card =
      Except.ok t) : t.conflict_behavior = cb := by
  simp only [derive_table_catalog, bind, Except.bind] at h
  split at h
  · simp only [Except.ok.injEq] at h
    subst h
    rfl
  · split at h
    · exact absurd h (by simp)
    · simp only [Except.ok.injEq] at h
      subst h
      rfl

/-- On the explicit-key path, `derive_table_catalog` stores exactly the given
key columns, ascending, as both primary key and stream key. -/
theorem derive_table_catalog_explicit_pk (ri : PlanRef) (name : String) (ord : Order)
    (cols : List ColumnCatalog) (defn : String) (cb : ConflictBehavior)
    (idxs : List Nat) (row_id : Option Nat) (tt : TableType)
    (ver : Option TableVersion) (card : Cardinality) (t : TableCatalog)
    (h : derive_table_catalog ri name ord cols defn cb (some idxs) row_id tt ver card =
      Except.ok t) :
    t.pk = idxs.map (fun idx => ColumnOrder.new idx OrderType.ascending) ∧
      t.stream_key = idxs := by
  simp only [derive_table_catalog, bind, Except.bind] at h
  simp only [Except.ok.injEq] at h
  subst h
  exact ⟨rfl, rfl⟩

/-- On success, the derived-key path produces a stream key contained in the
primary-key columns and a non-empty primary key. -/
theorem derive_pk_spec (input : PlanRef) (ord : Order) (cols : List ColumnCatalog)
    (pk : List ColumnOrder) (sk : List Nat)
    (h : derive_pk input ord cols = Except.ok (pk, sk)) :
    (∀ c ∈ sk, c ∈ pk.map ColumnOrder.column_index) ∧ pk ≠ [] := by
  simp only [derive_pk] at h
  split at h
  · exact absurd h (by simp)
  · rename_i sk0 hsk
    split at h
    · exact absurd h (by simp)
    · rename_i hne
      simp only [Except.ok.injEq, Prod.mk.injEq] at h
      obtain ⟨hpk, hskm⟩ := h
      subst hpk
      subst hskm
      constructor
      · intro c hc
        simp only [List.map_append, List.map_map]
        by_cases hco :
          (Order.column_orders ord).map ColumnOrder.column_index |>.contains c
        · exact List.mem_append_left _ (by simpa using hco)
        · refine List.mem_append_right _ ?_
          simp only [Function.comp, ColumnOrder.new]
          refine List.mem_map.mpr ⟨c, ?_, rfl⟩
          exact List.mem_filter.mpr ⟨hc, by simpa using hco⟩
      · intro hnil
        rw [hnil] at hne
        simp at hne

/-- Decomposition of a successful `create_for_table`: the result wraps the
rewritten input and the catalog derived on the explicit-key path. -/
theorem create_for_table_ok (input : PlanRef) (name : String) (u : RequiredDist)
    (ord : Order) (cols : List ColumnCatalog) (defn : String) (cb : ConflictBehavior)
    (pk_column_indices : List Nat) (row_id : Option Nat) (ver : Option TableVersion)
    (m : StreamMaterialize)
    (h : create_for_table input name u ord cols defn cb pk_column_indices row_id ver =
      Except.ok m) :
    ∃ inp1 t, rewrite_input input u TableType.Table = Except.ok inp1 ∧
      derive_table_catalog inp1 name ord cols defn cb (some pk_column_indices) row_id
          TableType.Table ver Cardinality.unknown = Except.ok t ∧
      m = StreamMaterialize.new inp1 t := by
  simp only [create_for_table, bind, Except.bind] at h
  split at h
  · exact absurd h (by simp)
  · rename_i inp1 hinp
    split at h
    · exact absurd h (by simp)
    · rename_i t ht
      simp only [Except.ok.injEq] at h
      exact ⟨inp1, t, hinp, ht, h.symm⟩

/-- Decomposition of a successful `create`: the result wraps the rewritten
(and id-reorganized) input, the derived columns, and the catalog derived on
the derived-key path with `NoCheck` conflict behavior. -/
theorem create_ok (input : PlanRef) (name : String) (u : RequiredDist) (ord : Order)
    (user_cols : List Nat) (out_names : List String) (defn : String) (tt : TableType)
    (card : Cardinality) (m : StreamMaterialize)
    (h : create input name u ord user_cols out_names defn tt card = Except.ok m) :
    ∃ inp1 cols t, rewrite_input input u tt = Except.ok inp1 ∧
      derive_columns (reorganize_elements_id inp1).schema out_names user_cols =
        Except.ok cols ∧
      derive_table_catalog (reorganize_elements_id inp1) name ord cols defn
          ConflictBehavior.NoCheck none none tt none card = Except.ok t ∧
      m = StreamMaterialize.new (reorganize_elements_id inp1) t := by
  simp only [create, bind, Except.bind] at h
  split at h
  · exact absurd h (by simp)
  · rename_i inp1 hinp
    split at h
    · exact absurd h (by simp)
    · rename_i cols hcols
      split at h
      · exact absurd h (by simp)
      · rename_i t ht
        simp only [Except.ok.injEq] at h
        exact ⟨inp1, cols, t, hinp, hcols, ht, h.symm⟩

/-! The claim theorems. -/

/-- Claim C3: for every `TABLE` creation through `create_for_table` with
explicit key column indices, the constructed descriptor's primary key is
exactly that column list in order, each ascending, and the stream key is the
same list (identity law). -/
theorem c3_explicit_pk_identity (input : PlanRef) (name : String) (u : RequiredDist)
    (ord : Order) (cols : List ColumnCatalog) (defn : String) (cb : ConflictBehavior)
    (pk_column_indices : List Nat) (row_id : Option Nat) (ver : Option TableVersion)
    (m : StreamMaterialize)
    (h : create_for_table input name u ord cols defn cb pk_column_indices row_id ver =
      Except.ok m) :
    m.table.pk = pk_column_indices.map (fun idx => ColumnOrder.new idx OrderType.ascending) ∧
      m.table.stream_key = pk_column_indices := by
  obtain ⟨inp1, t, hinp, ht, hm⟩ :=
    create_for_table_ok input name u ord cols defn cb pk_column_indices row_id ver m h
  subst hm
  exact derive_table_catalog_explicit_pk inp1 name ord cols defn cb pk_column_indices
    row_id TableType.Table ver Cardinality.unknown t ht

/-- Witness for C3: the example `TABLE` creation with key columns `[0]`
yields primary key `[(0, ascending)]` and stream key `[0]`. -/
theorem c3_explicit_pk_identity_witness :
    mat_m.table.pk = [ColumnOrder.new 0 OrderType.ascending] ∧
      mat_m.table.stream_key = [0] :=
  c3_explicit_pk_identity mat_in "t" RequiredDist.Any Order.any [colA] ""
    ConflictBehavior.Overwrite [0] none none mat_m rfl

/-- Claim C8: for every `TABLE` creation through `create_for_table`, the
caller-supplied conflict behavior appears unchanged in the constructed
descriptor. -/
theorem c8_conflict_behavior_passthrough (input : PlanRef) (name : String)
    (u : RequiredDist) (ord : Order) (cols : List ColumnCatalog) (defn : String)
    (cb : ConflictBehavior) (pk_column_indices : List Nat) (row_id : Option Nat)
    (ver : Option TableVersion) (m : StreamMaterialize)
    (h : create_for_table input name u ord cols defn cb pk_column_indices row_id ver =
      Except.ok m) :
    m.table.conflict_behavior = cb := by
  obtain ⟨inp1, t, hinp, ht, hm⟩ :=
    create_for_table_ok input name u ord cols defn cb pk_column_indices row_id ver m h
  subst hm
  exact derive_table_catalog_conflict inp1 name ord cols defn cb (some pk_column_indices)
    row_id TableType.Table ver Cardinality.unknown t ht

/-- Witness for C8: the example `TABLE` creation with `Overwrite` conflict
behavior stores `Overwrite` in the descriptor. -/
theorem c8_conflict_behavior_witness :
    mat_m.table.conflict_behavior = ConflictBehavior.Overwrite :=
  c8_conflict_behavior_passthrough mat_in "t" RequiredDist.Any Order.any [colA] ""
    ConflictBehavior.Overwrite [0] none none mat_m rfl

/-- Claim C10: every `MATERIALIZED VIEW` or `INDEX` descriptor constructed
through `create` has conflict behavior `NoCheck`; this creation path
hard-codes `NoCheck` and its signature offers no conflict-behavior
parameter. -/
theorem c10_create_nocheck (input : PlanRef) (name : String) (u : RequiredDist)
    (ord : Order) (user_cols : List Nat) (out_names : List String) (defn : String)
    (tt : TableType) (card : Cardinality) (m : StreamMaterialize)
    (h : create input name u ord user_cols out_names defn tt card = Except.ok m) :
    m.table.conflict_behavior = ConflictBehavior.NoCheck := by
  obtain ⟨inp1, cols, t, hinp, hcols, ht, hm⟩ :=
    create_ok input name u ord user_cols out_names defn tt card m h
  subst hm
  exact derive_table_catalog_conflict (reorganize_elements_id inp1) name ord cols defn
    ConflictBehavior.NoCheck none none tt none card t ht

/-- Witness for C10: the example `MATERIALIZED VIEW` creation stores
`NoCheck`. -/
theorem c10_create_nocheck_witness :
    mv_m.table.conflict_behavior = ConflictBehavior.NoCheck :=
  c10_create_nocheck mat_in "mv" RequiredDist.Any Order.any [0] ["a"] ""
    TableType.MaterializedView Cardinality.unknown mv_m rfl

/-- Counterexample to claim C6: the node metadata built by
`StreamMaterialize::new` does not pass the stream key through from the input;
it takes it from the table descriptor. With an input whose stream key is
`[0]` and a table whose stream key is `[1]`, the node's stream key is
`some [1]`, not the input's `some [0]`. -/
theorem c6_new_passthrough_counterexample :
    (StreamMaterialize.new mat_in { mat_tbl with stream_key := [1] }).base.stream_key ≠
      mat_in.stream_key ∧
    (StreamMaterialize.new mat_in { mat_tbl with stream_key := [1] }).base.stream_key =
      some [1] ∧
    mat_in.stream_key = some [0] := by
  refine ⟨?_, rfl, rfl⟩
  decide

/-- Claim C6 as amended: every node built by `StreamMaterialize::new` passes
schema, distribution, append-only flag, emit-on-window-close flag, watermark
columns and functional dependencies through from the input unchanged, while
its stream key is taken from the table descriptor. -/
theorem c6_new_passthrough (input : PlanRef) (table : TableCatalog) :
    (StreamMaterialize.new input table).base.schema = input.schema ∧
    (StreamMaterialize.new input table).base.dist = input.distribution ∧
    (StreamMaterialize.new input table).base.append_only = input.append_only ∧
    (StreamMaterialize.new input table).base.emit_on_window_close =
      input.emit_on_window_close ∧
    (StreamMaterialize.new input table).base.watermark_columns =
      input.watermark_columns ∧
    (StreamMaterialize.new input table).base.functional_dependency =
      input.functional_dependency ∧
    (StreamMaterialize.new input table).base.stream_key = some table.stream_key :=
  ⟨rfl, rfl, rfl, rfl, rfl, rfl, rfl⟩

/-- Claim C7: whenever the input's current distribution is `Single`, the
required distribution computed by `rewrite_input` is `Single`, regardless of
the table kind and of the caller-declared distribution. -/
theorem c7_single_forces_single (input : PlanRef) (user_distributed_by : RequiredDist)
    (table_type : TableType) (h : input.distribution = Distribution.Single) :
    rewrite_input_required input user_distributed_by table_type =
      Except.ok (RewriteStage.dist RequiredDist.single) := by
  unfold rewrite_input_required
  rw [h]

/-- Witness for C7: the example single-distribution input forces the `Single`
requirement even for a `Table` with an unconstrained caller distribution. -/
theorem c7_single_forces_single_witness :
    rewrite_input_required mat_in RequiredDist.Any TableType.Table =
      Except.ok (RewriteStage.dist RequiredDist.single) :=
  c7_single_forces_single mat_in RequiredDist.Any TableType.Table rfl

/-- Claim C9: `to_stream_prost_body` renders a materialize descriptor whose
table id is the placeholder `0`, whose column orders are exactly the
descriptor's primary key as (column index, direction) pairs, and which
carries the full table descriptor. -/
theorem c9_prost_body_rendering (m : StreamMaterialize) :
    (to_stream_prost_body m).materialize_body.table_id = 0 ∧
    (to_stream_prost_body m).materialize_body.column_orders.map
        (fun c => (c.column_index, c.direction)) =
      m.table.pk.map (fun c => (c.column_index, c.order_type)) ∧
    (to_stream_prost_body m).materialize_body.table = some m.table := by
  refine ⟨rfl, ?_, rfl⟩
  simp [to_stream_prost_body, PbNodeBody.materialize_body, ColumnOrder.to_protobuf,
    List.map_map, Function.comp]

/-- Claim C5: `clone_with_input` only ever returns a node whose own schema
field data types, type names and sub-fields, and whose stream key, are
identical to the original node's; a replacement child whose schema field
types differ makes it fail fatally instead of returning a changed node. -/
theorem c5_clone_preserves_schema_and_key (self : StreamMaterialize) (input : PlanRef) :
    (∀ r, clone_with_input self input = Except.ok r →
      fields_type_eq r.base.schema.fields self.base.schema.fields = true ∧
      r.base.stream_key = self.base.stream_key) ∧
    (fields_type_eq input.schema.fields self.base.schema.fields = false →
      clone_with_input self input =
        Except.error (RwErr.fatal "assertion failed: schema field type changed")) := by
  constructor
  · intro r hr
    simp only [clone_with_input] at hr
    split at hr
    · rename_i hft
      split at hr
      · rename_i hsk
        simp only [Except.ok.injEq] at hr
        subst hr
        exact ⟨hft, by simpa using hsk⟩
      · exact absurd hr (by simp)
    · exact absurd hr (by simp)
  · intro hft
    have hcond :
        fields_type_eq (StreamMaterialize.new input self.table).base.schema.fields
            self.base.schema.fields ≠ true := by
      simp [StreamMaterialize.new, hft]
    simp only [clone_with_input, if_neg hcond]

/-- Witness for C5: cloning the example node onto a same-schema child
succeeds preserving field types and stream key; cloning it onto a child with
a different field type fails fatally. -/
theorem c5_clone_witness :
    (fields_type_eq clone_res.base.schema.fields mat_m.base.schema.fields = true ∧
      clone_res.base.stream_key = mat_m.base.stream_key) ∧
    clone_with_input mat_m clone_bad_in =
      Except.error (RwErr.fatal "assertion failed: schema field type changed") :=
  ⟨(c5_clone_preserves_schema_and_key mat_m clone_good_in).1 clone_res rfl,
    (c5_clone_preserves_schema_and_key mat_m clone_bad_in).2 rfl⟩

/-- Claim C4: with a non-`Single` input distribution, a `Table` creation
whose declared distribution is not a shard-by-key request, or an `Index`
creation whose declared distribution is not a resolved hash-shard request,
makes the resolver fail fatally instead of substituting a distribution. -/
theorem c4_resolver_fatal_on_mismatch (input : PlanRef) (u : RequiredDist)
    (tt : TableType) (h1 : input.distribution ≠ Distribution.Single)
    (h2 : (tt = TableType.Table ∧ u.is_shard_by_key = false) ∨
      (tt = TableType.Index ∧ u.is_resolved_hash_shard = false)) :
    fatal_result (rewrite_input input u tt) = true := by
  have hreq : ∃ msg, rewrite_input_required input u tt =
      Except.error (RwErr.fatal msg) := by
    unfold rewrite_input_required
    rcases h2 with ⟨rfl, hu⟩ | ⟨rfl, hu⟩
    · cases hd : input.distribution
      case Single => exact absurd hd h1
      all_goals
        (rcases u with _ | _ | cols | d
         · exact ⟨_, rfl⟩
         · exact ⟨_, rfl⟩
         · simp [RequiredDist.is_shard_by_key] at hu
         · exact ⟨_, rfl⟩)
    · cases hd : input.distribution
      case Single => exact absurd hd h1
      all_goals
        (rcases u with _ | _ | cols | d
         · exact ⟨_, rfl⟩
         · exact ⟨_, rfl⟩
         · exact ⟨_, rfl⟩
         · cases d
           case HashShard cols2 => simp [RequiredDist.is_resolved_hash_shard] at hu
           all_goals exact ⟨_, rfl⟩)
  obtain ⟨msg, hmsg⟩ := hreq
  simp [rewrite_input, bind, Except.bind, hmsg, fatal_result]

/-- Witness for C4: a `Table` creation over the example hash-join input with
an unconstrained declared distribution fails fatally. -/
theorem c4_resolver_fatal_witness :
    fatal_result (rewrite_input join_in RequiredDist.Any TableType.Table) = true :=
  c4_resolver_fatal_on_mismatch join_in RequiredDist.Any TableType.Table (by decide)
    (Or.inl ⟨rfl, rfl⟩)

/-- Counterexample to claim C1: on the example stream hash join (distribution
hash-shard by column 0, stream key column 1), the `MaterializedView` branch
of `rewrite_input` does not leave the join's distribution unchanged: it
returns a new exchange stage on top of the join, re-sharded by the stream
key column 1. -/
theorem c1_mv_join_counterexample :
    (rewrite_input join_in RequiredDist.Any TableType.MaterializedView).map
        PlanRef.kind = Except.ok NodeKind.streamExchange ∧
    (rewrite_input join_in RequiredDist.Any TableType.MaterializedView).map
        PlanRef.distribution = Except.ok (Distribution.HashShard [1]) ∧
    join_in.kind = NodeKind.streamHashJoin ∧
    join_in.distribution = Distribution.HashShard [0] :=
  ⟨rfl, rfl, rfl, rfl⟩

/-- Claim C1 as amended: for a `MaterializedView` over a stream hash,
temporal or delta join whose distribution is not `Single`, the resolver
unconditionally overrides the distribution: it returns the join wrapped in a
new redistribution (exchange) stage enforcing shard-by-stream-key, instead of
leaving the join's existing distribution in place. -/
theorem c1_mv_join_enforces_stream_key (input : PlanRef) (sk : List Nat)
    (h1 : input.distribution ≠ Distribution.Single)
    (h2 : (input.as_stream_hash_join.isSome || input.as_stream_temporal_join.isSome ||
      input.as_stream_delta_join.isSome) = true)
    (h3 : input.stream_key = some sk) :
    rewrite_input input RequiredDist.Any TableType.MaterializedView =
      Except.ok
        ((RequiredDist.shard_by_key input.schema.fields.length sk).enforce input
          Order.any) ∧
    ((RequiredDist.shard_by_key input.schema.fields.length sk).enforce input
        Order.any).kind = NodeKind.streamExchange ∧
    ((RequiredDist.shard_by_key input.schema.fields.length sk).enforce input
        Order.any).children = [input] := by
  refine ⟨?_, rfl, rfl⟩
  unfold rewrite_input rewrite_input_required
  cases hd : input.distribution <;>
    first
      | exact absurd hd h1
      | simp only [PlanRef.expect_stream_key, h3, h2, bind, Except.bind, if_true]

/-- Witness for the amended C1: on the example stream hash join the resolver
returns exactly the exchange stage enforcing shard-by-stream-key on top of
the join. -/
theorem c1_mv_join_enforce_witness :
    rewrite_input join_in RequiredDist.Any TableType.MaterializedView =
      Except.ok
        ((RequiredDist.shard_by_key join_in.schema.fields.length [1]).enforce join_in
          Order.any) ∧
    ((RequiredDist.shard_by_key join_in.schema.fields.length [1]).enforce join_in
        Order.any).kind = NodeKind.streamExchange ∧
    ((RequiredDist.shard_by_key join_in.schema.fields.length [1]).enforce join_in
        Order.any).children = [join_in] :=
  c1_mv_join_enforces_stream_key join_in [1] (by decide) (by decide) rfl

/-- Counterexample to claim C2: `derive_table_catalog` accepts an empty
explicit key-column list and then constructs a descriptor whose primary key
(and stream key) is empty, violating the non-empty-primary-key part of the
claim. -/
theorem c2_pk_invariant_counterexample :
    (derive_table_catalog mat_in "t" Order.any [colA] "" ConflictBehavior.NoCheck
        (some []) none TableType.Table none Cardinality.unknown).map TableCatalog.pk =
      Except.ok [] ∧
    (derive_table_catalog mat_in "t" Order.any [colA] "" ConflictBehavior.NoCheck
        (some []) none TableType.Table none Cardinality.unknown).map
        TableCatalog.stream_key = Except.ok [] :=
  ⟨rfl, rfl⟩

/-- Claim C2 as amended: every descriptor constructed by
`derive_table_catalog` has its stream-key columns contained in its
primary-key columns, and its primary key is non-empty provided the explicit
key-column list, when supplied, is non-empty (the derived-key path never
succeeds with an empty key). -/
theorem c2_pk_invariant (ri : PlanRef) (name : String) (ord : Order)
    (cols : List ColumnCatalog) (defn : String) (cb : ConflictBehavior)
    (pk_idx : Option (List Nat)) (row_id : Option Nat) (tt : TableType)
    (ver : Option TableVersion) (card : Cardinality) (t : TableCatalog)
    (h : derive_table_catalog ri name ord cols defn cb pk_idx row_id tt ver card =
      Except.ok t)
    (hne : pk_idx ≠ some []) :
    (∀ c ∈ t.stream_key, c ∈ t.pk.map ColumnOrder.column_index) ∧ t.pk ≠ [] := by
  cases pk_idx with
  | some idxs =>
    obtain ⟨hpk, hsk⟩ :=
      derive_table_catalog_explicit_pk ri name ord cols defn cb idxs row_id tt ver card t h
    rw [hpk, hsk]
    constructor
    · intro c hc
      simp only [List.map_map]
      simpa [Function.comp, ColumnOrder.new] using hc
    · have hidx : idxs ≠ [] := fun hh => hne (by rw [hh])
      simp [hidx]
  | none =>
    simp only [derive_table_catalog, bind, Except.bind] at h
    split at h
    · exact absurd h (by simp)
    · rename_i pair hpair
      simp only [Except.ok.injEq] at h
      subst h
      exact derive_pk_spec ri ord cols pair.1 pair.2 hpair

/-- Witness for the amended C2: the example explicit-key descriptor has its
stream key inside its primary-key columns and a non-empty primary key. -/
theorem c2_pk_invariant_witness :
    (∀ c ∈ mat_tbl.stream_key, c ∈ mat_tbl.pk.map ColumnOrder.column_index) ∧
      mat_tbl.pk ≠ [] :=
  c2_pk_invariant mat_in "t" Order.any [colA] "" ConflictBehavior.Overwrite (some [0])
    none TableType.Table none Cardinality.unknown mat_tbl rfl (by decide)

end RW
